import Mathlib

/-!
# Verification of `fl_main/lib/util` (simple-federated-learning)

Shallow embedding of `src/fl_main/lib/util/helpers.py` and
`src/fl_main/lib/util/states.py`, with theorems settling the frozen claims
about identity generation, compatible payload decoding, model-bundle
persistence, the state store, and the positional message schemas.

Python values flowing through the utilities are modelled by the inductive
`PyVal`; Python `dict`s by association lists with first-occurrence lookup,
in-place update and `pop` semantics. Machine-level effects are made explicit:
`generate_id` takes the MAC address and current time as an `Env`, file I/O is
modelled by passing the file content, and `pickle` round-trips values (so the
stored bundle is the dict itself). SHA-256 is implemented executably over
`Nat` with explicit reduction mod 2^32.
-/

set_option autoImplicit false

namespace FLMain

/-! ## SHA-256 (executable, over `Nat` mod 2^32) -/

/-- Truncate to a 32-bit word. -/
def w32 (n : Nat) : Nat := n % 4294967296

/-- Right rotation of a 32-bit word by `n` bits. -/
def rotr (n x : Nat) : Nat := w32 ((x >>> n) ||| (x <<< (32 - n)))

/-- The SHA-256 round constants (FIPS 180-4, here as decimals). -/
def shaK : Array Nat := #[
  1116352408, 1899447441, 3049323471, 3921009573, 961987163, 1508970993,
  2453635748, 2870763221, 3624381080, 310598401, 607225278, 1426881987,
  1925078388, 2162078206, 2614888103, 3248222580, 3835390401, 4022224774,
  264347078, 604807628, 770255983, 1249150122, 1555081692, 1996064986,
  2554220882, 2821834349, 2952996808, 3210313671, 3336571891, 3584528711,
  113926993, 338241895, 666307205, 773529912, 1294757372, 1396182291,
  1695183700, 1986661051, 2177026350, 2456956037, 2730485921, 2820302411,
  3259730800, 3345764771, 3516065817, 3600352804, 4094571909, 275423344,
  430227734, 506948616, 659060556, 883997877, 958139571, 1322822218,
  1537002063, 1747873779, 1955562222, 2024104815, 2227730452, 2361852424,
  2428436474, 2756734187, 3204031479, 3329325298]

/-- The eight 32-bit words of a SHA-256 chaining state. -/
structure Hash8 where
  a : Nat
  b : Nat
  c : Nat
  d : Nat
  e : Nat
  f : Nat
  g : Nat
  h : Nat

/-- The SHA-256 initial hash value (FIPS 180-4, here as decimals). -/
def shaH0 : Hash8 :=
  ⟨1779033703, 3144134277, 1013904242, 2773480762,
   1359893119, 2600822924, 528734635, 1541459225⟩

/-- Big-endian packing of 4 bytes of a block into one 32-bit word. -/
def wordsOfBlock (b : List Nat) : Array Nat :=
  (List.range 16).foldl (fun a i =>
    a.push ((b.getD (4 * i) 0 <<< 24) ||| (b.getD (4 * i + 1) 0 <<< 16) |||
            (b.getD (4 * i + 2) 0 <<< 8) ||| b.getD (4 * i + 3) 0)) #[]

/-- Extend the 16 words of a block to the 64-entry message schedule. -/
def extendSchedule (ws : Array Nat) : Array Nat :=
  (List.range 48).foldl (fun ws i =>
    let j := i + 16
    let w15 := ws.getD (j - 15) 0
    let w2 := ws.getD (j - 2) 0
    let s0 := (rotr 7 w15) ^^^ (rotr 18 w15) ^^^ (w15 >>> 3)
    let s1 := (rotr 17 w2) ^^^ (rotr 19 w2) ^^^ (w2 >>> 10)
    ws.push (w32 (ws.getD (j - 16) 0 + s0 + ws.getD (j - 7) 0 + s1))) ws

/-- One SHA-256 compression step over a 64-word schedule. -/
def compressBlock (hv : Hash8) (ws : Array Nat) : Hash8 :=
  let st := (List.range 64).foldl (fun (st : Hash8) i =>
    let S1 := rotr 6 st.e ^^^ rotr 11 st.e ^^^ rotr 25 st.e
    let ch := (st.e &&& st.f) ^^^ ((st.e ^^^ 0xffffffff) &&& st.g)
    let temp1 := w32 (st.h + S1 + ch + shaK.getD i 0 + ws.getD i 0)
    let S0 := rotr 2 st.a ^^^ rotr 13 st.a ^^^ rotr 22 st.a
    let maj := (st.a &&& st.b) ^^^ (st.a &&& st.c) ^^^ (st.b &&& st.c)
    let temp2 := w32 (S0 + maj)
    ⟨w32 (temp1 + temp2), st.a, st.b, st.c, w32 (st.d + temp1), st.e, st.f, st.g⟩) hv
  ⟨w32 (hv.a + st.a), w32 (hv.b + st.b), w32 (hv.c + st.c), w32 (hv.d + st.d),
   w32 (hv.e + st.e), w32 (hv.f + st.f), w32 (hv.g + st.g), w32 (hv.h + st.h)⟩

/-- SHA-256 padding: append `0x80`, zero bytes, and the 64-bit big-endian bit
length, reaching a multiple of 64 bytes. -/
def padMessage (msg : List Nat) : List Nat :=
  let len := msg.length
  let zeros := (119 - len % 64) % 64
  let bitLen := 8 * len
  msg ++ [0x80] ++ List.replicate zeros 0 ++
    ((List.range 8).map fun k => (bitLen >>> (8 * (7 - k))) % 256)

/-- Split a padded message into `n` blocks of 64 bytes. -/
def chunkBlocks : Nat → List Nat → List (List Nat)
  | 0, _ => []
  | n + 1, l => l.take 64 :: chunkBlocks n (l.drop 64)

/-- SHA-256 of a byte sequence, as the eight words of the digest. -/
def sha256 (msg : List Nat) : Hash8 :=
  let padded := padMessage msg
  (chunkBlocks (padded.length / 64) padded).foldl
    (fun hv b => compressBlock hv (extendSchedule (wordsOfBlock b))) shaH0

/-- Lower-case hex digit for a nibble. -/
def hexDigit (n : Nat) : Char :=
  if n < 10 then Char.ofNat (48 + n) else Char.ofNat (87 + n)

/-- The eight hex characters of one 32-bit word, most significant nibble
first. -/
def wordToHex (w : Nat) : List Char :=
  [hexDigit ((w >>> 28) % 16), hexDigit ((w >>> 24) % 16),
   hexDigit ((w >>> 20) % 16), hexDigit ((w >>> 16) % 16),
   hexDigit ((w >>> 12) % 16), hexDigit ((w >>> 8) % 16),
   hexDigit ((w >>> 4) % 16), hexDigit (w % 16)]

/-- The 64 hex characters of a digest. -/
def hexOfHash8 (hv : Hash8) : List Char :=
  wordToHex hv.a ++ wordToHex hv.b ++ wordToHex hv.c ++ wordToHex hv.d ++
  wordToHex hv.e ++ wordToHex hv.f ++ wordToHex hv.g ++ wordToHex hv.h

/-- UTF-8 encoding of one character. -/
def utf8Char (c : Char) : List Nat :=
  let n := c.toNat
  if n < 0x80 then [n]
  else if n < 0x800 then
    [0xc0 ||| (n >>> 6), 0x80 ||| (n &&& 0x3f)]
  else if n < 0x10000 then
    [0xe0 ||| (n >>> 12), 0x80 ||| ((n >>> 6) &&& 0x3f), 0x80 ||| (n &&& 0x3f)]
  else
    [0xf0 ||| (n >>> 18), 0x80 ||| ((n >>> 12) &&& 0x3f),
     0x80 ||| ((n >>> 6) &&& 0x3f), 0x80 ||| (n &&& 0x3f)]

/-- UTF-8 encoding of a string, as `raw.encode('utf-8')` does. -/
def utf8Encode (s : String) : List Nat := s.data.flatMap utf8Char

/-- `sha256(raw.encode('utf-8')).hexdigest()`. -/
def sha256hex (s : String) : String := ⟨hexOfHash8 (sha256 (utf8Encode s))⟩

/-! ## Python values and dictionaries

The utilities receive heterogeneous Python values (`Any`). `PyVal` covers the
kinds of values they actually handle: strings, floats, integers and nested
dicts. A float is identified by its `repr` string — the only operations the
code performs on one are equality and formatting into an f-string, and `repr`
determines both. A dict is an association list of string keys; Python's
insertion-order and unique-key discipline corresponds to first-occurrence
lookup, in-place replacement on assignment, and first-occurrence removal on
`pop`. -/

inductive PyVal where
  | str (s : String)
  | float (r : String)
  | int (n : Int)
  | dict (entries : List (String × PyVal))

/-- A Python dict: insertion-ordered string-keyed entries. -/
abbrev PyDict := List (String × PyVal)

/-- `k in d.keys()`. -/
def hasKey : PyDict → String → Bool
  | [], _ => false
  | (k', _) :: rest, k => if k' = k then true else hasKey rest k

/-- `d[k]` as an option: the value at the first occurrence of `k`. -/
def dictGet : PyDict → String → Option PyVal
  | [], _ => none
  | (k', v) :: rest, k => if k' = k then some v else dictGet rest k

/-- `d[k] = v`: replace in place at an existing key, else append. -/
def dictSet : PyDict → String → PyVal → PyDict
  | [], k, v => [(k, v)]
  | (k', v') :: rest, k, v =>
    if k' = k then (k, v) :: rest else (k', v') :: dictSet rest k v

/-- `d.pop(k)` with no default: the removed value and the remaining dict, or
`none` for the `KeyError` case. -/
def dictPop : PyDict → String → Option (PyVal × PyDict)
  | [], _ => none
  | (k', v') :: rest, k =>
    if k' = k then some (v', rest)
    else match dictPop rest k with
      | none => none
      | some (v, rest') => some (v, (k', v') :: rest')

mutual

/-- Python `repr` of a value (strings are quoted; escape sequences inside
string literals are not modelled — none of the values handled here need
them). -/
def pyRepr : PyVal → String
  | .str s => "'" ++ s ++ "'"
  | .float r => r
  | .int n => toString n
  | .dict es => "\x7b" ++ pyReprEntries es ++ "\x7d"

/-- The comma-separated `'key': repr(value)` items of a dict display. -/
def pyReprEntries : List (String × PyVal) → String
  | [] => ""
  | (k, v) :: rest =>
    "'" ++ k ++ "': " ++ pyRepr v ++
      (if rest.isEmpty then "" else ", ") ++ pyReprEntries rest

end

/-- Python `str`, as an f-string `{…}` placeholder renders a value. -/
def pyStr : PyVal → String
  | .str s => s
  | v => pyRepr v

/-! ## `fl_main/lib/util/states.py` -/

/-- `IDPrefix.agent` from the source's `class IDPrefix`. -/
def IDPrefix_agent : String := "agent"

/-- `IDPrefix.aggregator`. -/
def IDPrefix_aggregator : String := "aggregator"

/-- `IDPrefix.db`. -/
def IDPrefix_db : String := "database"

/-- `class ClientState(IntEnum)`. -/
inductive ClientState where
  | waiting_gm
  | training
  | sending
  | gm_ready
deriving DecidableEq

/-- The integer value of each `ClientState` member, as declared in the
source. -/
def ClientState.val : ClientState → Nat
  | .waiting_gm => 0
  | .training => 1
  | .sending => 2
  | .gm_ready => 3

/-- `class ParticipateMSGLocation(IntEnum)`. -/
inductive ParticipateMSGLocation where
  | msg_type
  | agent_id
  | model_id
  | lmodels
  | init_flag
  | sim_flag
  | exch_socket
  | gene_time
  | meta_data
  | agent_ip
deriving DecidableEq

/-- The index assigned to each `ParticipateMSGLocation` member, as declared
in the source. -/
def ParticipateMSGLocation.val : ParticipateMSGLocation → Nat
  | .msg_type => 0
  | .agent_id => 1
  | .model_id => 2
  | .lmodels => 3
  | .init_flag => 4
  | .sim_flag => 5
  | .exch_socket => 6
  | .gene_time => 7
  | .meta_data => 8
  | .agent_ip => 9

/-- `class DBPushMsgLocation(IntEnum)`. -/
inductive DBPushMsgLocation where
  | msg_type
  | component_id
  | round
  | model_type
  | models
  | model_id
  | gene_time
  | meta_data
  | req_id_list
deriving DecidableEq

/-- The index assigned to each `DBPushMsgLocation` member, as declared in the
source. -/
def DBPushMsgLocation.val : DBPushMsgLocation → Nat
  | .msg_type => 0
  | .component_id => 1
  | .round => 2
  | .model_type => 3
  | .models => 4
  | .model_id => 5
  | .gene_time => 6
  | .meta_data => 7
  | .req_id_list => 8

/-- `class GMDistributionMsgLocation(IntEnum)`. -/
inductive GMDistributionMsgLocation where
  | msg_type
  | aggregator_id
  | model_id
  | round
  | global_models
deriving DecidableEq

/-- The index assigned to each `GMDistributionMsgLocation` member, as
declared in the source. -/
def GMDistributionMsgLocation.val : GMDistributionMsgLocation → Nat
  | .msg_type => 0
  | .aggregator_id => 1
  | .model_id => 2
  | .round => 3
  | .global_models => 4

/-! ## `fl_main/lib/util/helpers.py`

The ambient machine state `generate_id` reads — `gma()` and `time.time()` —
is passed explicitly as an `Env`. `Env.now` is the Python `repr` of the
float returned by `time.time()`, which is all the code uses (formatting it
into f-strings and storing it as a value). -/

/-- The ambient inputs of `generate_id` and of the decode-time fallbacks:
the MAC address `gma()` and the current time `time.time()` (as its float
`repr`). -/
structure Env where
  macaddr : String
  now : String

/-- `generate_id()`: SHA-256 hex digest of `f'{macaddr}{in_time}'`. -/
def generate_id (env : Env) : String :=
  sha256hex (env.macaddr ++ env.now)

/-- `generate_model_id(component_type, component_id, generation_time)`:
SHA-256 hex digest of `f'{component_type}{component_id}{generation_time}'`.
The source annotates `component_id : str` and `generation_time : float`, but
the f-string formats whatever values arrive (`compatible_data_dict_read`
passes stored dict values through unchecked), so both are `PyVal` here and
rendered with `pyStr`. -/
def generate_model_id (component_type : String) (component_id : PyVal)
    (generation_time : PyVal) : String :=
  sha256hex (component_type ++ pyStr component_id ++ pyStr generation_time)

/-- `compatible_data_dict_read(data_dict)`: each of the four fields is taken
from the dict when its key (`my_id`, `gene_time`, `models`, `model_id`) is
present, else synthesized — a fresh `generate_id()`, the current time, the
whole input dict, and `generate_model_id(IDPrefix.agent, id, gene_time)`
respectively. Returns the 4-tuple `(id, gene_time, models, model_id)`. -/
def compatible_data_dict_read (env : Env) (data_dict : PyDict) :
    PyVal × PyVal × PyVal × PyVal :=
  let id := match dictGet data_dict "my_id" with
    | some v => v
    | none => .str (generate_id env)
  let gene_time := match dictGet data_dict "gene_time" with
    | some v => v
    | none => .float env.now
  let models := match dictGet data_dict "models" with
    | some v => v
    | none => .dict data_dict
  let model_id := match dictGet data_dict "model_id" with
    | some v => v
    | none => .str (generate_model_id IDPrefix_agent id gene_time)
  (id, gene_time, models, model_id)

/-- `save_model_file(data_dict, path, name, performance_dict)`: sets
`data_dict['performance'] = performance_dict` (mutating the caller's dict)
and pickles `data_dict` to `{path}/{name}`. The returned dict is both the
caller's `data_dict` after the call and the file's content (`pickle`
round-trips values, so the stored bundle is the dict itself). -/
def save_model_file (data_dict : PyDict)
    (performance_dict : PyDict := []) : PyDict :=
  dictSet data_dict "performance" (.dict performance_dict)

/-- `load_model_file(path, name)`: unpickles the file content and does
`performance_dict = data_dict.pop('performance')` — with no default, so a
bundle without the key raises `KeyError`, modelled as `none`. Returns
`(data_dict, performance_dict)`. -/
def load_model_file (file : PyDict) : Option (PyDict × PyVal) :=
  match dictPop file "performance" with
  | none => none
  | some (performance_dict, data_dict) => some (data_dict, performance_dict)

/-- Digit run of Python `int(st)`: the value of a nonempty all-digit
sequence. -/
def parseDigits : List Char → Option Nat
  | [] => none
  | cs => cs.foldl (fun acc c =>
      match acc with
      | none => none
      | some n => if c.isDigit then some (10 * n + (c.toNat - 48)) else none)
      (some 0)

/-- Python `int(st)` on a string with no surrounding whitespace: an optional
sign followed by decimal digits; anything else raises `ValueError`
(`none`). -/
def pyInt (s : String) : Option Int :=
  match s.data with
  | [] => none
  | '-' :: rest => (parseDigits rest).map (fun n => -(n : Int))
  | '+' :: rest => (parseDigits rest).map (fun n => (n : Int))
  | cs => (parseDigits cs).map (fun n => (n : Int))

/-- `write_state(path, name, state)`: the file content written,
`str(int(state))`. -/
def write_state (state : ClientState) : String :=
  toString state.val

/-- `read_state(path, name)`, with the file contents it observes over its
successive reads passed as `contents` (the read at attempt `i` sees
`contents i`) and a fuel bound on the number of reads modelling the
unbounded recursion. An empty read sleeps 10 ms and recurses on the next
attempt; a nonempty read returns `int(st)`. The result carries the total
milliseconds slept and the parsed value; `none` means the fuel ran out with
every observed content still empty. -/
def read_state_loop (contents : Nat → String) :
    Nat → Nat → Nat → Option (Nat × Option Int)
  | _, _, 0 => none
  | i, sleptMs, fuel + 1 =>
    let st := contents i
    if st = "" then read_state_loop contents (i + 1) (sleptMs + 10) fuel
    else some (sleptMs, pyInt st)

/-- `read_state` started at its first read with nothing slept yet. -/
def read_state (contents : Nat → String) (fuel : Nat) :
    Option (Nat × Option Int) :=
  read_state_loop contents 0 0 fuel

/-! ## Output predicates and concrete inputs -/

/-- A lower-case hexadecimal character: `0`–`9` or `a`–`f`. -/
def isHexDigitChar (c : Char) : Bool :=
  (48 ≤ c.toNat && c.toNat ≤ 57) || (97 ≤ c.toNat && c.toNat ≤ 102)

/-- Every character of the string is a lower-case hex digit. -/
def isHexString (s : String) : Bool := s.data.all isHexDigitChar

/-- A concrete ambient machine state: a MAC address and a current time. -/
def env0 : Env := ⟨"00:11:22:33:44:55", "1700000000.0"⟩

/-- The structured payload of the spec's test vector, with the
component-identity key spelled `id` as the spec spells it. -/
def payloadWithIdKey : PyDict :=
  [("id", .str "X"), ("gene_time", .float "100.0"),
   ("models", .dict [("m1", .str "blob")]), ("model_id", .str "M1")]

/-- The same structured payload with the key the code actually reads,
`my_id`. -/
def payloadWithMyIdKey : PyDict :=
  [("my_id", .str "X"), ("gene_time", .float "100.0"),
   ("models", .dict [("m1", .str "blob")]), ("model_id", .str "M1")]

/-- The legacy bare model payload `{"modelA": <blob>}`. -/
def legacyPayload : PyDict := [("modelA", .str "blob")]

/-- An old-format stored bundle with no `performance` entry. -/
def oldFormatBundle : PyDict := [("modelX", .str "v")]

/-- A bundle that already carries a `performance` entry before saving. -/
def bundleWithOldPerf : PyDict := [("a", .str "1"), ("performance", .str "old")]

/-- State-file contents over successive reads: empty for the first two reads,
then `"3"`. -/
def delayedContents : Nat → String := fun j => if j < 2 then "" else "3"

/-! ## Helper lemmas -/

theorem hexDigit_mod16 (n : Nat) : isHexDigitChar (hexDigit (n % 16)) = true := by
  have h : n % 16 < 16 := Nat.mod_lt n (by norm_num)
  have key : ∀ i : Fin 16, isHexDigitChar (hexDigit i.val) = true := by decide
  exact key ⟨n % 16, h⟩

theorem sha256hex_length (s : String) : (sha256hex s).length = 64 := by
  simp [sha256hex, String.length, hexOfHash8, wordToHex]

theorem sha256hex_isHex (s : String) : isHexString (sha256hex s) = true := by
  simp [sha256hex, isHexString, hexOfHash8, wordToHex, hexDigit_mod16]

theorem get_eq_none_of_hasKey_eq_false (d : PyDict) (k : String)
    (h : hasKey d k = false) : dictGet d k = none := by
  induction d with
  | nil => rfl
  | cons hd rest ih =>
    obtain ⟨k', v'⟩ := hd
    by_cases hk : k' = k
    · simp [hasKey, hk] at h
    · simp [hasKey, hk] at h
      simp [dictGet, hk, ih h]

theorem pop_eq_none_of_hasKey_eq_false (d : PyDict) (k : String)
    (h : hasKey d k = false) : dictPop d k = none := by
  induction d with
  | nil => rfl
  | cons hd rest ih =>
    obtain ⟨k', v'⟩ := hd
    by_cases hk : k' = k
    · simp [hasKey, hk] at h
    · simp [hasKey, hk] at h
      simp [dictPop, hk, ih h]

theorem pop_set_of_hasKey_eq_false (d : PyDict) (k : String) (v : PyVal)
    (h : hasKey d k = false) : dictPop (dictSet d k v) k = some (v, d) := by
  induction d with
  | nil => simp [dictSet, dictPop]
  | cons hd rest ih =>
    obtain ⟨k', v'⟩ := hd
    by_cases hk : k' = k
    · simp [hasKey, hk] at h
    · simp [hasKey, hk] at h
      simp [dictSet, dictPop, hk, ih h]

theorem get_set_self (d : PyDict) (k : String) (v : PyVal) :
    dictGet (dictSet d k v) k = some v := by
  induction d with
  | nil => simp [dictSet, dictGet]
  | cons hd rest ih =>
    obtain ⟨k', v'⟩ := hd
    by_cases hk : k' = k
    · simp [dictSet, dictGet, hk]
    · simp [dictSet, dictGet, hk, ih]

theorem get_set_ne (d : PyDict) (k : String) (v : PyVal) (k' : String)
    (h : k' ≠ k) : dictGet (dictSet d k v) k' = dictGet d k' := by
  have h' : ¬ k = k' := fun e => h (Eq.symm e)
  induction d with
  | nil => simp [dictSet, dictGet, h']
  | cons hd rest ih =>
    obtain ⟨k'', v''⟩ := hd
    by_cases hk : k'' = k
    · subst hk
      simp [dictSet, dictGet, h']
    · by_cases hk' : k'' = k'
      · simp [dictSet, dictGet, hk, hk', h]
      · simp [dictSet, dictGet, hk, hk', ih]

theorem read_state_loop_none (contents : Nat → String) :
    ∀ fuel i s, (∀ j, i ≤ j → j < i + fuel → contents j = "") →
      read_state_loop contents i s fuel = none := by
  intro fuel
  induction fuel with
  | zero => intro i s _; rfl
  | succ n ih =>
    intro i s h
    have hi : contents i = "" := h i (Nat.le_refl i) (by omega)
    simp only [read_state_loop, hi, if_pos]
    exact ih (i + 1) (s + 10) (fun j hj1 hj2 => h j (by omega) (by omega))

theorem read_state_loop_first_nonempty (contents : Nat → String) :
    ∀ fuel i s k, i ≤ k → k < i + fuel →
      (∀ j, i ≤ j → j < k → contents j = "") → contents k ≠ "" →
      read_state_loop contents i s fuel =
        some (s + 10 * (k - i), pyInt (contents k)) := by
  intro fuel
  induction fuel with
  | zero => intro i s k h1 h2 _ _; omega
  | succ n ih =>
    intro i s k h1 h2 hempty hk
    by_cases hik : k = i
    · subst hik
      simp only [read_state_loop, if_neg hk]
      simp
    · have hlt : i < k := by omega
      have hi : contents i = "" := hempty i (Nat.le_refl i) hlt
      simp only [read_state_loop, hi, if_pos]
      have := ih (i + 1) (s + 10) k (by omega) (by omega)
        (fun j hj1 hj2 => hempty j (by omega) hj2) hk
      rw [this]
      congr 1
      congr 1
      omega

/-! ## Claims -/

/-- C1 (amended): for every payload mapping that contains all four optional
keys the code reads — `my_id`, `gene_time`, `models`, `model_id` —
`compatible_data_dict_read` yields exactly the stored values with no field
synthesized. The claim as frozen spells the component-identity key `id`,
which the code does not read (see the counterexample): the key must be
`my_id`. -/
theorem compat_all_present (env : Env) (d : PyDict) (v1 v2 v3 v4 : PyVal)
    (h1 : dictGet d "my_id" = some v1) (h2 : dictGet d "gene_time" = some v2)
    (h3 : dictGet d "models" = some v3) (h4 : dictGet d "model_id" = some v4) :
    compatible_data_dict_read env d = (v1, v2, v3, v4) := by
  simp [compatible_data_dict_read, h1, h2, h3, h4]

/-- C1 witness: decoding `{my_id: "X", gene_time: 100.0, models:
{"m1": <blob>}, model_id: "M1"}` returns exactly
`("X", 100.0, {"m1": <blob>}, "M1")`. -/
theorem compat_all_present_witness :
    compatible_data_dict_read env0 payloadWithMyIdKey =
      (.str "X", .float "100.0", .dict [("m1", .str "blob")], .str "M1") :=
  compat_all_present env0 payloadWithMyIdKey _ _ _ _ rfl rfl rfl rfl

/-- C1 counterexample: decoding the claim's literal payload `{id: "X",
gene_time: 100.0, models: {"m1": <blob>}, model_id: "M1"}` does not return
`("X", 100.0, {"m1": <blob>}, "M1")` — the code looks for the key `my_id`,
finds nothing under it, and synthesizes a fresh 64-character identity in
place of `"X"`. -/
theorem compat_id_key_counterexample :
    compatible_data_dict_read env0 payloadWithIdKey ≠
      (.str "X", .float "100.0", .dict [("m1", .str "blob")], .str "M1") := by
  intro h
  have h1 : (compatible_data_dict_read env0 payloadWithIdKey).1 = PyVal.str "X" := by
    rw [h]
  have h2 : (compatible_data_dict_read env0 payloadWithIdKey).1 =
      PyVal.str (generate_id env0) := rfl
  rw [h2] at h1
  have h3 : generate_id env0 = "X" := by injection h1
  have h4 : (generate_id env0).length = 64 := sha256hex_length _
  rw [h3] at h4
  exact absurd h4 (by decide)

/-- C2: the fallback chain is applied independently per field. Whenever the
`models` key is absent, the entire input mapping is returned unchanged as the
models component; whenever the `model_id` key is absent, the returned
model-set identity is `generate_model_id` applied to the agent prefix, the
resolved component identity and the resolved generation time — whatever the
rest of the mapping contains. -/
theorem compat_fallbacks (env : Env) (d : PyDict) :
    (hasKey d "models" = false →
      (compatible_data_dict_read env d).2.2.1 = .dict d) ∧
    (hasKey d "model_id" = false →
      (compatible_data_dict_read env d).2.2.2 =
        .str (generate_model_id IDPrefix_agent
          (compatible_data_dict_read env d).1
          (compatible_data_dict_read env d).2.1)) := by
  constructor
  · intro h
    have hg := get_eq_none_of_hasKey_eq_false d "models" h
    simp [compatible_data_dict_read, hg]
  · intro h
    have hg := get_eq_none_of_hasKey_eq_false d "model_id" h
    simp [compatible_data_dict_read, hg]

/-- C2 witness: decoding the legacy bare mapping `{"modelA": <blob>}` returns
it unchanged as the models component, and synthesizes the model-set identity
from the agent prefix and the resolved id and time. -/
theorem compat_fallbacks_witness :
    (compatible_data_dict_read env0 legacyPayload).2.2.1 = .dict legacyPayload ∧
    (compatible_data_dict_read env0 legacyPayload).2.2.2 =
      .str (generate_model_id IDPrefix_agent
        (compatible_data_dict_read env0 legacyPayload).1
        (compatible_data_dict_read env0 legacyPayload).2.1) :=
  ⟨(compat_fallbacks env0 legacyPayload).1 rfl,
   (compat_fallbacks env0 legacyPayload).2 rfl⟩

/-- C3 (amended): for every stored bundle whose mapping lacks the
`performance` key, `load_model_file` fails with a `KeyError` (modelled as
`none`) — it does not default to an empty performance mapping, because
`data_dict.pop('performance')` is called with no default. -/
theorem load_missing_performance (file : PyDict)
    (h : hasKey file "performance" = false) :
    load_model_file file = none := by
  unfold load_model_file
  rw [pop_eq_none_of_hasKey_eq_false file _ h]

/-- C3 witness: loading the old-format bundle `{"modelX": v}` fails. -/
theorem load_missing_performance_witness :
    load_model_file oldFormatBundle = none :=
  load_missing_performance oldFormatBundle rfl

/-- C3 counterexample: on the old-format bundle `{"modelX": v}` the load does
not succeed with an empty performance mapping — it raises `KeyError`
(`none`). -/
theorem load_missing_performance_counterexample :
    ¬ load_model_file oldFormatBundle = some (oldFormatBundle, .dict []) ∧
    load_model_file oldFormatBundle = none := by
  constructor
  · intro h
    rw [show load_model_file oldFormatBundle = none from rfl] at h
    cases h
  · rfl

/-- C4: save-then-load round trip. For every models mapping without a
`performance` key and every performance mapping, saving the bundle and
loading it back returns the models mapping and the performance mapping as two
separate values, and the `performance` key is absent from the returned models
mapping. -/
theorem save_then_load (d p : PyDict) (h : hasKey d "performance" = false) :
    load_model_file (save_model_file d p) = some (d, .dict p) ∧
    ∀ m q, load_model_file (save_model_file d p) = some (m, q) →
      hasKey m "performance" = false := by
  have key := pop_set_of_hasKey_eq_false d "performance" (.dict p) h
  have h1 : load_model_file (save_model_file d p) = some (d, .dict p) := by
    unfold load_model_file save_model_file
    rw [key]
  refine ⟨h1, ?_⟩
  intro m q hmq
  rw [h1] at hmq
  have h2 : d = m ∧ PyVal.dict p = q := by
    have := Option.some.inj hmq
    exact ⟨congrArg Prod.fst this, congrArg Prod.snd this⟩
  rw [← h2.1]
  exact h

/-- C4 witness: saving `{"modelX": v}` with performance `{"modelX": 0.9}` and
loading returns the two mappings separately, `performance`-free. -/
theorem save_then_load_witness :
    load_model_file (save_model_file [("modelX", .str "v")] [("modelX", .float "0.9")]) =
      some ([("modelX", .str "v")], .dict [("modelX", .float "0.9")]) ∧
    ∀ m q, load_model_file (save_model_file [("modelX", .str "v")] [("modelX", .float "0.9")]) =
      some (m, q) → hasKey m "performance" = false :=
  save_then_load [("modelX", .str "v")] [("modelX", .float "0.9")] rfl

/-- C5: state round trip. For every state `S` in `{waiting_gm, training,
sending, gm_ready}`, a `read_state` immediately after `write_state S` —
observing the just-written file content — returns `S`'s integer value
(having slept nothing). -/
theorem write_then_read_state (S : ClientState) :
    read_state (fun _ => write_state S) 1 = some (0, some (S.val : Int)) := by
  cases S <;> rfl

/-- C6: `read_state` treats an empty file content as transient. A nonempty
first read returns `int` of the content at once with nothing slept; when the
first `k` reads are empty and read `k` is nonempty, it returns `int` of that
content after `k` retries of 10 ms each (`10 * k` ms slept in total); and
while every observed content is empty it keeps retrying — no fuel bound makes
it return. So it terminates exactly when the content becomes nonempty. -/
theorem read_state_retry_spec (contents : Nat → String) (fuel k : Nat) :
    (contents 0 ≠ "" → 0 < fuel →
      read_state contents fuel = some (0, pyInt (contents 0))) ∧
    ((∀ j, j < k → contents j = "") → contents k ≠ "" → k < fuel →
      read_state contents fuel = some (10 * k, pyInt (contents k))) ∧
    ((∀ j, j < fuel → contents j = "") → read_state contents fuel = none) := by
  refine ⟨?_, ?_, ?_⟩
  · intro h0 hf
    have := read_state_loop_first_nonempty contents fuel 0 0 0 (Nat.le_refl 0)
      (by omega) (fun j hj1 hj2 => absurd hj2 (by omega)) h0
    simpa [read_state] using this
  · intro hempty hk hkf
    have := read_state_loop_first_nonempty contents fuel 0 0 k (Nat.zero_le k)
      (by omega) (fun j _ hj2 => hempty j hj2) hk
    simpa [read_state] using this
  · intro hempty
    exact read_state_loop_none contents fuel 0 0 (fun j _ hj2 => hempty j (by omega))

/-- C6 witness: with contents empty on the first two reads and `"3"` on the
third, `read_state` returns `3` after 20 ms of sleeping; with contents always
empty it is still retrying after 5 reads. -/
theorem read_state_retry_spec_witness :
    read_state delayedContents 5 = some (20, some 3) ∧
    read_state (fun _ => "") 5 = none := by
  constructor
  · have h := (read_state_retry_spec delayedContents 5 2).2.1
      (by decide) (by decide) (by decide)
    exact h.trans (by decide)
  · exact (read_state_retry_spec (fun _ => "") 5 0).2.2 (fun j _ => rfl)

/-- C7: the positional message schemas match the declared index enumerations
exactly — `ParticipateMSGLocation` assigns 0–9, `DBPushMsgLocation` 0–8 and
`GMDistributionMsgLocation` 0–4 to their members in the declared order. -/
theorem message_location_indices :
    (ParticipateMSGLocation.msg_type.val = 0 ∧ ParticipateMSGLocation.agent_id.val = 1 ∧
     ParticipateMSGLocation.model_id.val = 2 ∧ ParticipateMSGLocation.lmodels.val = 3 ∧
     ParticipateMSGLocation.init_flag.val = 4 ∧ ParticipateMSGLocation.sim_flag.val = 5 ∧
     ParticipateMSGLocation.exch_socket.val = 6 ∧ ParticipateMSGLocation.gene_time.val = 7 ∧
     ParticipateMSGLocation.meta_data.val = 8 ∧ ParticipateMSGLocation.agent_ip.val = 9) ∧
    (DBPushMsgLocation.msg_type.val = 0 ∧ DBPushMsgLocation.component_id.val = 1 ∧
     DBPushMsgLocation.round.val = 2 ∧ DBPushMsgLocation.model_type.val = 3 ∧
     DBPushMsgLocation.models.val = 4 ∧ DBPushMsgLocation.model_id.val = 5 ∧
     DBPushMsgLocation.gene_time.val = 6 ∧ DBPushMsgLocation.meta_data.val = 7 ∧
     DBPushMsgLocation.req_id_list.val = 8) ∧
    (GMDistributionMsgLocation.msg_type.val = 0 ∧ GMDistributionMsgLocation.aggregator_id.val = 1 ∧
     GMDistributionMsgLocation.model_id.val = 2 ∧ GMDistributionMsgLocation.round.val = 3 ∧
     GMDistributionMsgLocation.global_models.val = 4) := by
  decide

/-- C8: both identity generators are deterministic pure functions. For every
fixed `(fingerprint, time)` pair, `generate_id` yields the same value on
every call, and that value is a 64-character hexadecimal string; and
`generate_model_id` yields equal outputs for equal
`(component_type, component_id, generation_time)` inputs. -/
theorem identity_generators_pure_hex :
    (∀ mac t : String,
      generate_id ⟨mac, t⟩ = generate_id ⟨mac, t⟩ ∧
      (generate_id ⟨mac, t⟩).length = 64 ∧
      isHexString (generate_id ⟨mac, t⟩) = true) ∧
    (∀ (ct₁ ct₂ : String) (cid₁ cid₂ gt₁ gt₂ : PyVal),
      ct₁ = ct₂ → cid₁ = cid₂ → gt₁ = gt₂ →
      generate_model_id ct₁ cid₁ gt₁ = generate_model_id ct₂ cid₂ gt₂) := by
  refine ⟨fun mac t => ⟨rfl, sha256hex_length _, sha256hex_isHex _⟩, ?_⟩
  intro ct₁ ct₂ cid₁ cid₂ gt₁ gt₂ h1 h2 h3
  rw [h1, h2, h3]

/-- C8 witness: `generate_model_id` on the agent prefix, a concrete id and a
concrete time equals itself on equal inputs. -/
theorem identity_generators_pure_hex_witness :
    generate_model_id IDPrefix_agent (.str "C") (.float "100.0") =
      generate_model_id IDPrefix_agent (.str "C") (.float "100.0") :=
  identity_generators_pure_hex.2 IDPrefix_agent IDPrefix_agent
    (.str "C") (.str "C") (.float "100.0") (.float "100.0") rfl rfl rfl

/-- C9: `save_model_file` mutates its caller's `data_dict`. After the call
the caller's mapping binds `performance` to the passed performance mapping —
overwriting any existing `performance` entry — and every other key is bound
exactly as before. -/
theorem save_model_file_frame (d p : PyDict) :
    dictGet (save_model_file d p) "performance" = some (.dict p) ∧
    ∀ k, k ≠ "performance" → dictGet (save_model_file d p) k = dictGet d k :=
  ⟨get_set_self d "performance" _, fun k hk => get_set_ne d "performance" _ k hk⟩

/-- C9 witness: saving over a bundle that already had a `performance` entry
overwrites it with the new mapping and leaves the `"a"` entry as it was. -/
theorem save_model_file_frame_witness :
    dictGet (save_model_file bundleWithOldPerf [("m", .float "0.5")]) "performance" =
      some (.dict [("m", .float "0.5")]) ∧
    dictGet (save_model_file bundleWithOldPerf [("m", .float "0.5")]) "a" =
      dictGet bundleWithOldPerf "a" :=
  ⟨(save_model_file_frame bundleWithOldPerf [("m", .float "0.5")]).1,
   (save_model_file_frame bundleWithOldPerf [("m", .float "0.5")]).2 "a" (by decide)⟩

/-- C10: `read_state` performs no range validation. For every nonempty file
content that parses as a decimal integer `n`, it returns `n` — membership of
`n` in the `ClientState` value set is never checked. -/
theorem read_state_no_range_check (s : String) (n : Int)
    (hne : s ≠ "") (hparse : pyInt s = some n) :
    read_state (fun _ => s) 1 = some (0, some n) := by
  simp [read_state, read_state_loop, hne, hparse]

/-- C10 witness: content `"7"` reads back as `7`, although `7` is the value
of no `ClientState` member. -/
theorem read_state_no_range_check_witness :
    read_state (fun _ => "7") 1 = some (0, some 7) ∧
    ∀ S : ClientState, (S.val : Int) ≠ 7 :=
  ⟨read_state_no_range_check "7" 7 (by decide) (by decide),
   by intro S; cases S <;> decide⟩

end FLMain
